import Mathlib

/-!
The documentation index `_graph_structure_8h`

`Code/Documentation/_graph_structure_8h.js` consists of one JavaScript array
literal bound to the variable `_graph_structure_8h`.  The literal is built from
three kinds of value only: `null`, string literals and array literals.  It is
embedded here as a value of `JSValue`, element for element, and the accessors
below read an entry `[label, link, children]` by position.
-/

namespace EVRPDoc

/-- The JavaScript values that occur in the literal: `null`, strings, arrays. -/
inductive JSValue where
  | null : JSValue
  | str (s : String) : JSValue
  | arr (items : List JSValue) : JSValue

open JSValue

/-- The array literal of `_graph_structure_8h.js`, lines 1 to 20. -/
def _graph_structure_8h : JSValue :=
  arr [
    arr [ str "Node", str "struct_node.html", str "struct_node" ],
    arr [ str "EVRP_Data", str "_graph_structure_8h.html#struct_e_v_r_p___data", arr [
      arr [ str "customerStartIndex", str "_graph_structure_8h.html#a0d2cbe267f074354fec4678a7585c080", null ],
      arr [ str "fuelCapacity", str "_graph_structure_8h.html#ae0477139e4f9183e510c1dcaed678d52", null ],
      arr [ str "fuelConsumptionRate", str "_graph_structure_8h.html#a3247aec6a1df0649f885203e76ec9e9b", null ],
      arr [ str "loadCapacity", str "_graph_structure_8h.html#ab01f753d693662a727c4ee4883562ab5", null ],
      arr [ str "nodes", str "_graph_structure_8h.html#aa06f172ac3f4b3ebef947ceb37e8d311", null ]
    ] ],
    arr [ str "optimization_result", str "_graph_structure_8h.html#structoptimization__result", arr [
      arr [ str "algorithm_name", str "_graph_structure_8h.html#abc4a7246e5c88dd1006d2af810127164", null ],
      arr [ str "distance", str "_graph_structure_8h.html#acff691e26c8e577bde5466f1b21f3f64", null ],
      arr [ str "execution_time", str "_graph_structure_8h.html#ac9d3e68ebe8e32698bcb86d96df1012b", null ],
      arr [ str "hyperparameters", str "_graph_structure_8h.html#a08144b4d8a645a5fa974078f9d932824", null ],
      arr [ str "solution_decoded", str "_graph_structure_8h.html#a99959cd4d3bf4ec4373a781faaa77d42", null ],
      arr [ str "solution_encoded", str "_graph_structure_8h.html#a7d7b6878012c4417f2d20572c6105d2a", null ]
    ] ],
    arr [ str "Node", str "_graph_structure_8h.html#a3b09f37e675bcd48a01bf22155996872", null ]
  ]

/-- The elements of an array value; a value that is no array has none. -/
def elements : JSValue → List JSValue
  | arr items => items
  | _ => []

/-- Component 0 of an entry, when it is a string. -/
def label? : JSValue → Option String
  | arr (str l :: _) => some l
  | _ => none

/-- Component 1 of an entry, when it is a string. -/
def link? : JSValue → Option String
  | arr (_ :: str k :: _) => some k
  | _ => none

/-- Component 2 of an entry (`null` when the entry has no such component). -/
def children : JSValue → JSValue
  | arr (_ :: _ :: c :: _) => c
  | _ => null

/-- The member entries of an entry: the elements of its children component
when that component is an array, none otherwise. -/
def members (e : JSValue) : List JSValue :=
  elements (children e)

/-- The top-level entries of the table. -/
def topEntries (table : JSValue) : List JSValue :=
  elements table

mutual
/-- The entries of a table at every nesting level, in document order. -/
def allEntries : JSValue → List JSValue
  | arr items => allEntriesOfList items
  | _ => []
/-- The entries at every nesting level of a list of entries. -/
def allEntriesOfList : List JSValue → List JSValue
  | [] => []
  | e :: rest => (e :: nestedEntries e) ++ allEntriesOfList rest
/-- The entries found at every nesting level below one entry. -/
def nestedEntries : JSValue → List JSValue
  | arr (_ :: _ :: c :: _) => allEntries c
  | _ => []
end

mutual
/-- The shape `[label, link, children]` with string label and link and a
children component that is `null` or a list of entries of this same shape. -/
def isStrictEntry : JSValue → Bool
  | arr [str _, str _, c] => isStrictChildren c
  | _ => false
/-- The children component of `isStrictEntry`: `null` or a list of entries. -/
def isStrictChildren : JSValue → Bool
  | null => true
  | arr items => isStrictEntryList items
  | _ => false
/-- The list of entries of `isStrictChildren`. -/
def isStrictEntryList : List JSValue → Bool
  | [] => true
  | e :: rest => isStrictEntry e && isStrictEntryList rest
end

mutual
/-- The shape `[label, link, children]` with string label and link and a
children component that is `null`, a string, or a list of entries of this
same shape. -/
def isNavEntry : JSValue → Bool
  | arr [str _, str _, c] => isNavChildren c
  | _ => false
/-- The children component of `isNavEntry`: `null`, a string, or a list. -/
def isNavChildren : JSValue → Bool
  | null => true
  | str _ => true
  | arr items => isNavEntryList items
/-- The list of entries of `isNavChildren`. -/
def isNavEntryList : List JSValue → Bool
  | [] => true
  | e :: rest => isNavEntry e && isNavEntryList rest
end

/-- The page of the header `graph_structure.h`, followed by the anchor sign. -/
def headerPage : String := "_graph_structure_8h.html#"

/-- A link into the page of the header: `_graph_structure_8h.html#<anchor>`
with a non-empty anchor. -/
def IsHeaderAnchor (link : String) : Prop :=
  ∃ anchor : String, anchor ≠ "" ∧ link = headerPage ++ anchor

/-- What is left of a list of characters after a given beginning, when it
begins so. -/
def stripHead : List Char → List Char → Option (List Char)
  | [], rest => some rest
  | _ :: _, [] => none
  | a :: as, b :: bs => if a = b then stripHead as bs else none

/-- The anchor of a link into the page of the header, when it is one. -/
def anchorOf? (link : String) : Option String :=
  (stripHead headerPage.data link.data).map String.mk

/-- The executable form of `IsHeaderAnchor`. -/
def hasHeaderAnchor (link : String) : Bool :=
  match anchorOf? link with
  | some anchor => decide (anchor ≠ "")
  | none => false

/-- Whether a value is a string. -/
def isStr : JSValue → Bool
  | str _ => true
  | _ => false

/-- Whether a value is an array. -/
def isArr : JSValue → Bool
  | arr _ => true
  | _ => false

/-- The links associated with a label: the link components of the entries,
at every nesting level, that carry the label, in document order. -/
def linksOf (table : JSValue) (l : String) : List (Option String) :=
  ((allEntries table).filter (fun e => label? e == some l)).map link?

/-! Lemmas -/

/-- The entries below an entry are those of its children component. -/
theorem nestedEntries_eq (e : JSValue) : nestedEntries e = allEntries (children e) := by
  unfold nestedEntries children
  split <;> simp_all [allEntries]

/-- When `stripHead` succeeds, the list is the beginning followed by the rest. -/
theorem stripHead_sound (p l r : List Char) (h : stripHead p l = some r) : l = p ++ r := by
  induction p generalizing l with
  | nil => simp [stripHead] at h; simp [h]
  | cons a as ih =>
    cases l with
    | nil => simp [stripHead] at h
    | cons b bs =>
      by_cases hab : a = b
      · simp [stripHead, hab] at h
        simp [hab, ih bs h]
      · simp [stripHead, hab] at h

/-- The function `stripHead` finds every beginning. -/
theorem stripHead_complete (p r : List Char) : stripHead p (p ++ r) = some r := by
  induction p with
  | nil => simp [stripHead]
  | cons a as ih => simp [stripHead, ih]

/-- The executable check decides `IsHeaderAnchor`. -/
theorem hasHeaderAnchor_iff (link : String) : hasHeaderAnchor link = true ↔ IsHeaderAnchor link := by
  unfold hasHeaderAnchor anchorOf? IsHeaderAnchor
  constructor
  · intro h
    cases hs : stripHead headerPage.data link.data with
    | none => simp [hs] at h
    | some r =>
      simp [hs] at h
      refine ⟨String.mk r, h, ?_⟩
      apply String.ext
      simp [String.data_append, stripHead_sound _ _ _ hs]
  · rintro ⟨anchor, hne, rfl⟩
    simp [String.data_append, stripHead_complete, hne]

/-- A value different from every string is no string for `isStr`. -/
theorem isStr_eq_false (v : JSValue) (h : ∀ s, v ≠ str s) : isStr v = false := by
  cases v with
  | null => rfl
  | str s => exact absurd rfl (h s)
  | arr items => rfl

/-- A value that `isArr` rejects is different from every array. -/
theorem ne_arr_of_isArr_false (v : JSValue) (h : isArr v = false) :
    ∀ items, v ≠ arr items := by
  intro items hv
  subst hv
  simp [isArr] at h

/-- Strings are ascending when their character lists are. -/
theorem sorted_of_data (ls : List String)
    (h : (ls.map String.toList).Pairwise (fun a b => a < b)) : ls.Sorted (fun a b => a < b) := by
  rw [List.pairwise_map] at h
  exact h.imp (fun hab => String.lt_iff_toList_lt.mpr hab)

/-! The claims -/

/-- C1, as stated, fails: the first top-level entry
`[ "Node", "struct_node.html", "struct_node" ]` is an entry of the table whose
children component is the string `"struct_node"`, neither `null` nor a list
of entries. -/
theorem C1_first_entry_children_is_string :
    arr [str "Node", str "struct_node.html", str "struct_node"] ∈ allEntries _graph_structure_8h ∧
    children (arr [str "Node", str "struct_node.html", str "struct_node"]) = str "struct_node" ∧
    isStrictEntry (arr [str "Node", str "struct_node.html", str "struct_node"]) = false ∧
    ¬ (∀ e ∈ allEntries _graph_structure_8h, isStrictEntry e = true) := by
  refine ⟨List.Mem.head _, rfl, rfl, ?_⟩
  decide

/-- C1, amended: every entry of the table `_graph_structure_8h`, at every
nesting level, is a triple `[label, link, children]` in which label and link
are strings and children is `null`, a string, or itself a list of entries of
this same shape. -/
theorem C1_entries_are_nav_triples :
    ∀ e ∈ allEntries _graph_structure_8h, isNavEntry e = true := by
  decide

/-- Instance of the amended C1 at the first top-level entry, whose children component is a string. -/
theorem C1_entries_are_nav_triples_witness :
    arr [str "Node", str "struct_node.html", str "struct_node"] ∈ allEntries _graph_structure_8h ∧
    isNavEntry (arr [str "Node", str "struct_node.html", str "struct_node"]) = true :=
  ⟨List.Mem.head _, C1_entries_are_nav_triples _ (List.Mem.head _)⟩

/-- C2, as stated, fails: the label `Node` occurs in two entries of the table
whose links differ. -/
theorem C2_node_has_two_links :
    arr [str "Node", str "struct_node.html", str "struct_node"] ∈ allEntries _graph_structure_8h ∧
    arr [str "Node", str "_graph_structure_8h.html#a3b09f37e675bcd48a01bf22155996872", null]
      ∈ allEntries _graph_structure_8h ∧
    label? (arr [str "Node", str "struct_node.html", str "struct_node"]) =
      label? (arr [str "Node", str "_graph_structure_8h.html#a3b09f37e675bcd48a01bf22155996872", null]) ∧
    link? (arr [str "Node", str "struct_node.html", str "struct_node"]) ≠
      link? (arr [str "Node", str "_graph_structure_8h.html#a3b09f37e675bcd48a01bf22155996872", null]) := by
  refine ⟨List.Mem.head _, ?_, rfl, by decide⟩
  simp [allEntries, allEntriesOfList, nestedEntries, _graph_structure_8h]

/-- C2, amended: every entry of the table `_graph_structure_8h`, at any
nesting level, has a string label and a string link, and for every label
other than `Node` there is exactly one link associated with it: the links of
the entries carrying the label are that one link and no other, and every
entry with the label has it. -/
theorem C2_non_node_label_has_one_link :
    ∀ e ∈ allEntries _graph_structure_8h, ∃ l k, label? e = some l ∧ link? e = some k ∧
      (l ≠ "Node" → linksOf _graph_structure_8h l = [some k] ∧
        ∀ b ∈ allEntries _graph_structure_8h, label? b = some l → link? b = some k) := by
  intro e he
  simp only [allEntries, allEntriesOfList, nestedEntries, _graph_structure_8h, List.cons_append,
    List.nil_append, List.append_nil, List.mem_cons, List.mem_singleton, List.not_mem_nil,
    or_false] at he
  rcases he with rfl | rfl | rfl | rfl | rfl | rfl | rfl | rfl | rfl | rfl | rfl | rfl | rfl | rfl | rfl <;>
    refine ⟨_, _, rfl, rfl, fun hne => ?_⟩ <;>
    first
      | exact absurd rfl hne
      | exact ⟨rfl, by decide⟩

/-- Instance of the amended C2 at the member entry labelled `nodes`: the one
link of that label. -/
theorem C2_non_node_label_has_one_link_witness :
    arr [str "nodes", str "_graph_structure_8h.html#aa06f172ac3f4b3ebef947ceb37e8d311", null]
      ∈ allEntries _graph_structure_8h ∧
    linksOf _graph_structure_8h "nodes" =
      [some "_graph_structure_8h.html#aa06f172ac3f4b3ebef947ceb37e8d311"] ∧
    ∀ b ∈ allEntries _graph_structure_8h, label? b = some "nodes" →
      link? b = some "_graph_structure_8h.html#aa06f172ac3f4b3ebef947ceb37e8d311" := by
  have hmem : arr [str "nodes", str "_graph_structure_8h.html#aa06f172ac3f4b3ebef947ceb37e8d311", null]
      ∈ allEntries _graph_structure_8h := by
    simp [allEntries, allEntriesOfList, nestedEntries, _graph_structure_8h]
  obtain ⟨l, k, hl, hk, h⟩ := C2_non_node_label_has_one_link _ hmem
  have hl2 : l = "nodes" := (Option.some.inj hl).symm
  have hk2 : k = "_graph_structure_8h.html#aa06f172ac3f4b3ebef947ceb37e8d311" :=
    (Option.some.inj hk).symm
  subst hl2
  subst hk2
  exact ⟨hmem, h (by decide)⟩

/-- C3, as stated, fails: the first top-level entry links to the page
`struct_node.html`, which is not of the form
`_graph_structure_8h.html#<anchor>`. -/
theorem C3_first_entry_links_to_struct_page :
    arr [str "Node", str "struct_node.html", str "struct_node"] ∈ allEntries _graph_structure_8h ∧
    link? (arr [str "Node", str "struct_node.html", str "struct_node"]) = some "struct_node.html" ∧
    ¬ IsHeaderAnchor "struct_node.html" := by
  refine ⟨List.Mem.head _, rfl, ?_⟩
  rw [← hasHeaderAnchor_iff]
  decide

/-- C3, amended: every entry of the table `_graph_structure_8h`, at every
nesting level, whose children component is not a string has a link of the
form `_graph_structure_8h.html#<anchor>` with a non-empty anchor. -/
theorem C3_links_into_header_page :
    ∀ e ∈ allEntries _graph_structure_8h, (∀ s, children e ≠ str s) →
      ∃ link, link? e = some link ∧ IsHeaderAnchor link := by
  have key : ∀ e ∈ allEntries _graph_structure_8h, isStr (children e) = false →
      ∃ link, link? e = some link ∧ hasHeaderAnchor link = true := by
    decide
  intro e he hc
  obtain ⟨link, h1, h2⟩ := key e he (isStr_eq_false _ hc)
  exact ⟨link, h1, (hasHeaderAnchor_iff link).mp h2⟩

/-- Instance of the amended C3 at the member entry labelled `distance`. -/
theorem C3_links_into_header_page_witness :
    arr [str "distance", str "_graph_structure_8h.html#acff691e26c8e577bde5466f1b21f3f64", null]
      ∈ allEntries _graph_structure_8h ∧
    (∀ s, children (arr [str "distance",
      str "_graph_structure_8h.html#acff691e26c8e577bde5466f1b21f3f64", null]) ≠ str s) ∧
    ∃ link, link? (arr [str "distance",
      str "_graph_structure_8h.html#acff691e26c8e577bde5466f1b21f3f64", null]) = some link ∧
      IsHeaderAnchor link :=
  have hmem : arr [str "distance", str "_graph_structure_8h.html#acff691e26c8e577bde5466f1b21f3f64", null]
      ∈ allEntries _graph_structure_8h := by
    simp [allEntries, allEntriesOfList, nestedEntries, _graph_structure_8h]
  have hc : ∀ s, children (arr [str "distance",
      str "_graph_structure_8h.html#acff691e26c8e577bde5466f1b21f3f64", null]) ≠ str s := by
    intro s h
    simp [children] at h
  ⟨hmem, hc, C3_links_into_header_page _ hmem hc⟩

/-- C4: the table `_graph_structure_8h` has exactly one top-level entry
labelled `EVRP_Data`, and the labels of the members of that entry are
`customerStartIndex`, `fuelCapacity`, `fuelConsumptionRate`, `loadCapacity`,
`nodes`, in this order and no other. -/
theorem C4_evrp_data_members :
    ∃ e, (topEntries _graph_structure_8h).filter (fun x => label? x == some "EVRP_Data") = [e] ∧
      (members e).map label? =
        [some "customerStartIndex", some "fuelCapacity", some "fuelConsumptionRate",
         some "loadCapacity", some "nodes"] :=
  ⟨_, rfl, by decide⟩

/-- C5: the table `_graph_structure_8h` has exactly one top-level entry
labelled `optimization_result`, and the labels of the members of that entry
are `algorithm_name`, `distance`, `execution_time`, `hyperparameters`,
`solution_decoded`, `solution_encoded`, in this order and no other. -/
theorem C5_optimization_result_members :
    ∃ e, (topEntries _graph_structure_8h).filter
        (fun x => label? x == some "optimization_result") = [e] ∧
      (members e).map label? =
        [some "algorithm_name", some "distance", some "execution_time",
         some "hyperparameters", some "solution_decoded", some "solution_encoded"] :=
  ⟨_, rfl, by decide⟩

/-- C6: the labels of the top-level entries of the table
`_graph_structure_8h` are exactly `Node`, `EVRP_Data` and
`optimization_result`: each of the three occurs, and no top-level entry has
another label or none. -/
theorem C6_top_level_labels (l : Option String) :
    l ∈ (topEntries _graph_structure_8h).map label? ↔
      (l = some "Node" ∨ l = some "EVRP_Data" ∨ l = some "optimization_result") := by
  simp only [topEntries, elements, _graph_structure_8h, List.map, label?, List.mem_cons,
    List.mem_singleton, List.not_mem_nil, or_false]
  tauto

/-- C7: no members are shown for `Node`: for every top-level entry of the table
`_graph_structure_8h` whose label is `Node`, the children component is not a
list, and the entry has no member entry. -/
theorem C7_node_has_no_members :
    ∀ e ∈ topEntries _graph_structure_8h, label? e = some "Node" →
      (∀ items, children e ≠ arr items) ∧ members e = [] := by
  have key : ∀ e ∈ topEntries _graph_structure_8h, label? e = some "Node" →
      isArr (children e) = false ∧ (members e).length = 0 := by
    decide
  intro e he hl
  obtain ⟨h1, h2⟩ := key e he hl
  exact ⟨ne_arr_of_isArr_false _ h1, List.length_eq_zero.mp h2⟩

/-- Instance of C7 at the first top-level entry labelled `Node`. -/
theorem C7_node_has_no_members_witness :
    arr [str "Node", str "struct_node.html", str "struct_node"] ∈ topEntries _graph_structure_8h ∧
    label? (arr [str "Node", str "struct_node.html", str "struct_node"]) = some "Node" ∧
    (∀ items, children (arr [str "Node", str "struct_node.html", str "struct_node"]) ≠ arr items) ∧
    members (arr [str "Node", str "struct_node.html", str "struct_node"]) = [] :=
  ⟨List.Mem.head _, rfl, C7_node_has_no_members _ (List.Mem.head _) rfl⟩

/-- C8: the links of the table `_graph_structure_8h` are pairwise distinct:
the table has 4 top-level entries and 11 member entries, 15 entries in all,
each of them has a link string, and no two of them have the same one. -/
theorem C8_links_pairwise_distinct :
    ((allEntries _graph_structure_8h).map link?).Nodup ∧
    none ∉ (allEntries _graph_structure_8h).map link? ∧
    (topEntries _graph_structure_8h).length = 4 ∧
    ((topEntries _graph_structure_8h).map (fun e => (members e).length)).sum = 11 ∧
    (allEntries _graph_structure_8h).length = 15 := by
  decide

/-- C9: for every top-level entry of the table `_graph_structure_8h` whose
children component is a list of member entries, the labels of those members
are strings in strictly ascending lexicographic order of their characters,
hence pairwise distinct. -/
theorem C9_member_labels_ascending :
    ∀ e ∈ topEntries _graph_structure_8h, ∀ items, children e = arr items →
      ∃ labels : List String, items.map label? = labels.map some ∧
        labels.Sorted (fun a b => a < b) ∧ labels.Nodup := by
  intro e he items hc
  simp only [topEntries, elements, _graph_structure_8h, List.mem_cons, List.mem_singleton,
    List.not_mem_nil, or_false] at he
  rcases he with rfl | rfl | rfl | rfl
  · simp [children] at hc
  · simp only [children, arr.injEq] at hc
    subst hc
    exact ⟨["customerStartIndex", "fuelCapacity", "fuelConsumptionRate", "loadCapacity", "nodes"],
      rfl, sorted_of_data _ (by decide), by decide⟩
  · simp only [children, arr.injEq] at hc
    subst hc
    exact ⟨["algorithm_name", "distance", "execution_time", "hyperparameters",
      "solution_decoded", "solution_encoded"], rfl, sorted_of_data _ (by decide), by decide⟩
  · simp [children] at hc

/-- Instance of C9 at the top-level entry labelled `EVRP_Data`. -/
theorem C9_member_labels_ascending_witness :
    arr [ str "EVRP_Data", str "_graph_structure_8h.html#struct_e_v_r_p___data", arr [
      arr [ str "customerStartIndex", str "_graph_structure_8h.html#a0d2cbe267f074354fec4678a7585c080", null ],
      arr [ str "fuelCapacity", str "_graph_structure_8h.html#ae0477139e4f9183e510c1dcaed678d52", null ],
      arr [ str "fuelConsumptionRate", str "_graph_structure_8h.html#a3247aec6a1df0649f885203e76ec9e9b", null ],
      arr [ str "loadCapacity", str "_graph_structure_8h.html#ab01f753d693662a727c4ee4883562ab5", null ],
      arr [ str "nodes", str "_graph_structure_8h.html#aa06f172ac3f4b3ebef947ceb37e8d311", null ]
    ] ] ∈ topEntries _graph_structure_8h ∧
    ∃ labels : List String,
      [ arr [ str "customerStartIndex", str "_graph_structure_8h.html#a0d2cbe267f074354fec4678a7585c080", null ],
        arr [ str "fuelCapacity", str "_graph_structure_8h.html#ae0477139e4f9183e510c1dcaed678d52", null ],
        arr [ str "fuelConsumptionRate", str "_graph_structure_8h.html#a3247aec6a1df0649f885203e76ec9e9b", null ],
        arr [ str "loadCapacity", str "_graph_structure_8h.html#ab01f753d693662a727c4ee4883562ab5", null ],
        arr [ str "nodes", str "_graph_structure_8h.html#aa06f172ac3f4b3ebef947ceb37e8d311", null ]
      ].map label? = labels.map some ∧
      labels.Sorted (fun a b => a < b) ∧ labels.Nodup :=
  ⟨List.Mem.tail _ (List.Mem.head _),
    C9_member_labels_ascending _ (List.Mem.tail _ (List.Mem.head _)) _ rfl⟩

end EVRPDoc
